import Mathlib

/-!
Shallow embedding of the `logsy` crate (src/src/lib.rs): a process-wide
logger singleton with a mutex-guarded configuration, a console sink, an
optional file sink, and a minimum-severity filter.

Modelling conventions:
- The `log` crate severity types are embedded as `Level` (Error = 1 up to
  Trace = 5, matching the upstream discriminants; the derived Rust ordering
  compares these numbers) and `LevelFilter` (Off = 0 up to Trace = 5).
- The mutex is modelled by a `poisoned : Bool` flag: `lock()` succeeds
  exactly when the flag is false.  `Logsy.log` acquires the lock twice
  (once inside `enabled`, once for emission), so it takes two flags, one
  per acquisition, which lets the state change between them.
- The OS file-write result of the emission path is an input `writeOk`;
  the Rust code discards it via `let _ = writeln!(..)`.
- `eprintln!("... {record:?}")` is modelled as the pair of the literal
  message prefix and the record being interpolated.
-/

namespace Logsy

/-- `log::Level`, discriminants 1 (Error, most severe) to 5 (Trace). -/
inductive Level
  | error
  | warn
  | info
  | debug
  | trace
deriving DecidableEq, Repr

/-- The numeric discriminant of `log::Level`; the derived Rust ordering on
`Level` compares these numbers (Error = 1 is least / most severe). -/
def Level.toNat : Level → Nat
  | .error => 1
  | .warn => 2
  | .info => 3
  | .debug => 4
  | .trace => 5

/-- The string `log::Level` prints with `Display` (`record.level()`). -/
def Level.asStr : Level → String
  | .error => "ERROR"
  | .warn => "WARN"
  | .info => "INFO"
  | .debug => "DEBUG"
  | .trace => "TRACE"

/-- `log::LevelFilter`, discriminants 0 (Off) to 5 (Trace). -/
inductive LevelFilter
  | off
  | error
  | warn
  | info
  | debug
  | trace
deriving DecidableEq, Repr

/-- `LevelFilter::to_level`: `Off` maps to `None`, the rest to their level. -/
def LevelFilter.toLevel : LevelFilter → Option Level
  | .off => none
  | .error => some .error
  | .warn => some .warn
  | .info => some .info
  | .debug => some .debug
  | .trace => some .trace

/-- `LevelFilter::from_str`: case-insensitive match against the level
names `OFF`, `ERROR`, `WARN`, `INFO`, `DEBUG`, `TRACE`. -/
def LevelFilter.fromStr (s : String) : Option LevelFilter :=
  if s.toUpper = "OFF" then some .off
  else if s.toUpper = "ERROR" then some .error
  else if s.toUpper = "WARN" then some .warn
  else if s.toUpper = "INFO" then some .info
  else if s.toUpper = "DEBUG" then some .debug
  else if s.toUpper = "TRACE" then some .trace
  else none

/-- The open file handle stored in `LogsyConf.to_file` (we record what
`fs::OpenOptions` was given: the path and the append flag). -/
structure FileHandle where
  path : String
  append : Bool
deriving DecidableEq, Repr

/-- The mutex-guarded configuration `struct LogsyConf`. -/
structure LogsyConf where
  installed : Bool
  to_stderr : Bool
  to_file : Option FileHandle
  level : Option Level
deriving DecidableEq, Repr

/-- The whole observable global state: the `LOGSY` configuration, whether
its mutex is poisoned, the `log::set_max_level` fast-path hint (the `log`
crate initialises it to `Off`), and the state of the host registry slot
used by `log::set_logger`. -/
structure GlobalState where
  conf : LogsyConf
  poisoned : Bool
  maxLevel : LevelFilter
  registryOccupied : Bool
  registeredLogger : Bool
deriving DecidableEq, Repr

/-- The static initial state: `LOGSY` zero-initialised, mutex healthy,
`log` crate hint at `Off`, registry slot free. -/
def initialState : GlobalState :=
  { conf := { installed := false, to_stderr := false, to_file := none, level := none }
    poisoned := false
    maxLevel := .off
    registryOccupied := false
    registeredLogger := false }

/-- Outcome of a fallible public call: `Ok(())`, `Err(e)` (with the error
message), or a `panic` (modelled as a value, with the panic message). -/
inductive Outcome
  | ok
  | err (msg : String)
  | panicked (msg : String)
deriving DecidableEq, Repr

/-- Message of `std::sync::PoisonError`, produced when `lock()?` fails. -/
def poisonedLockMsg : String := "poisoned lock: another task failed inside"

/-- `SetLoggerError` rendered by `e.to_string()` in `ensure_installed`. -/
def setLoggerErrMsg : String :=
  "attempted to set a logger after the logging system was already initialized"

/-- Message of `log::ParseLevelError` (the `err` in the panic format). -/
def parseLevelErrMsg : String :=
  "attempted to convert a string that doesn\x27t match an existing log level"

/-- The panic message of `ensure_installed` for a bad `RUST_LOG` value:
`"{err}: invalid RUST_LOG env var value: {env_log_level:?}"` (the `{:?}`
debug rendering of the string wraps it in quotes). -/
def invalidEnvMsg (s : String) : String :=
  parseLevelErrMsg ++ ": invalid RUST_LOG env var value: \"" ++ s ++ "\""

/-- `log::set_logger(&LOGSY)`: fails iff the registry slot is already
occupied; on success `LOGSY` becomes the registered logger. -/
def set_logger (st : GlobalState) : GlobalState × Bool :=
  if st.registryOccupied then (st, false)
  else ({ st with registryOccupied := true, registeredLogger := true }, true)

/-- `pub fn try_set_level(filter)`: calls `log::set_max_level(filter)`
first, then locks the mutex (`?` on failure) and stores
`filter.to_level()` into `LogsyConf.level`. -/
def try_set_level (filter : LevelFilter) (st : GlobalState) : GlobalState × Outcome :=
  let st1 := { st with maxLevel := filter }
  if st1.poisoned then (st1, .err poisonedLockMsg)
  else ({ st1 with conf := { st1.conf with level := filter.toLevel } }, .ok)

/-- Result of `ensure_installed`: final state, outcome, and whether
`log::set_logger` was reached on this call. -/
structure InstallRes where
  state : GlobalState
  outcome : Outcome
  registrationAttempted : Bool
deriving DecidableEq, Repr

/-- `fn ensure_installed()`, with the optional `RUST_LOG` value as `env`:
reads `installed` under the lock; when false it sets `installed := true`,
calls `log::set_logger` (surfacing its error), then picks `Info` or the
parsed `RUST_LOG` value (panicking on an unparseable one) and applies it
via `try_set_level`. -/
def ensure_installed (env : Option String) (st : GlobalState) : InstallRes :=
  if st.poisoned then ⟨st, .err poisonedLockMsg, false⟩
  else if st.conf.installed then ⟨st, .ok, false⟩
  else
    let st1 : GlobalState := { st with conf := { st.conf with installed := true } }
    let reg := set_logger st1
    if reg.2 then
      match env with
      | none =>
          let r := try_set_level .info reg.1
          ⟨r.1, r.2, true⟩
      | some s =>
          match LevelFilter.fromStr s with
          | some lf =>
              let r := try_set_level lf reg.1
              ⟨r.1, r.2, true⟩
          | none => ⟨reg.1, .panicked (invalidEnvMsg s), true⟩
    else ⟨reg.1, .err setLoggerErrMsg, true⟩

/-- `pub fn try_to_console()`: `ensure_installed()?`, then set
`to_stderr := true` under the lock. -/
def try_to_console (env : Option String) (st : GlobalState) : GlobalState × Outcome :=
  match ensure_installed env st with
  | ⟨st2, Outcome.ok, _⟩ =>
      if st2.poisoned then (st2, .err poisonedLockMsg)
      else ({ st2 with conf := { st2.conf with to_stderr := true } }, .ok)
  | ⟨st2, out, _⟩ => (st2, out)

/-- On-disk state of the parent directory of the target path. -/
inductive PathState
  | missing
  | dir
  | other
deriving DecidableEq, Repr

/-- `Path::is_dir()`. -/
def PathState.isDir : PathState → Bool
  | .dir => true
  | _ => false

/-- `Path::exists()`. -/
def PathState.existsOnDisk : PathState → Bool
  | .missing => false
  | _ => true

/-- The filesystem view `try_to_file` consults: the state of
`path.parent()` (`none` when the path has no parent component). -/
structure FileSys where
  parent : Option PathState
deriving DecidableEq, Repr

/-- The guard of the directory-creation branch in `try_to_file`, verbatim
from the source: `dirname.is_dir() && !dirname.exists()`. -/
def shouldCreateDir : Option PathState → Bool
  | some d => d.isDir && !d.existsOnDisk
  | none => false

/-- `fs::create_dir_all(dirname)`: afterwards the parent is a directory. -/
def create_dir_all : FileSys → FileSys := fun _ => ⟨some .dir⟩

/-- Whether `OpenOptions::new().create(true).write(true).append(a).open(path)`
succeeds (sufficient permissions assumed): the parent must exist as a
directory, or the path must have no parent component. -/
def openOk (fs : FileSys) : Bool :=
  match fs.parent with
  | none => true
  | some .dir => true
  | some .missing => false
  | some .other => false

/-- The `io::Error` message when `open` fails on a missing parent. -/
def fileOpenErrMsg : String := "No such file or directory (os error 2)"

/-- The effect of the conditional directory-creation block of
`try_to_file` on the filesystem. -/
def dirStep (fs : FileSys) : FileSys :=
  if shouldCreateDir fs.parent then create_dir_all fs else fs

/-- `pub fn try_to_file(path, append)`: `ensure_installed()?`, the
conditional `create_dir_all` (see `dirStep`), the `open` (`?` on
failure), then store the new handle under the lock. Returns
(state, filesystem, outcome). -/
def try_to_file (env : Option String) (fs : FileSys) (path : String) (append : Bool)
    (st : GlobalState) : GlobalState × FileSys × Outcome :=
  match ensure_installed env st with
  | ⟨st2, Outcome.ok, _⟩ =>
      if openOk (dirStep fs) then
        if st2.poisoned then (st2, dirStep fs, .err poisonedLockMsg)
        else
          ({ st2 with conf := { st2.conf with to_file := some ⟨path, append⟩ } },
            dirStep fs, .ok)
      else (st2, dirStep fs, .err fileOpenErrMsg)
  | ⟨st2, out, _⟩ => (st2, fs, out)

/-- One public configuration call (the three setters of the crate). -/
inductive Op
  | toConsole (env : Option String)
  | toFile (env : Option String) (fs : FileSys) (path : String) (append : Bool)
  | setLevel (filter : LevelFilter)

/-- Dispatch one public configuration call on the global state. -/
def step : Op → GlobalState → GlobalState × Outcome
  | .toConsole env, st => try_to_console env st
  | .toFile env fs p a, st =>
      let r := try_to_file env fs p a st
      (r.1, r.2.2)
  | .setLevel f, st => try_set_level f st

/-- `impl log::Log for Logsy`: `fn enabled`, on the configuration guarded
by a possibly poisoned lock:
`self.0.lock().is_ok_and(|mg| mg.level.is_some_and(|level| metadata.level() <= level))`. -/
def enabled (poisoned : Bool) (conf : LogsyConf) (l : Level) : Bool :=
  !poisoned &&
    (match conf.level with
     | some lv => decide (l.toNat ≤ lv.toNat)
     | none => false)

/-- A `log::Record` as `Logsy::log` reads it: severity, module path
(`record.module_path()`), and the formatted message (`record.args()`). -/
structure LogRecord where
  level : Level
  module_path : Option String
  msg : String
deriving DecidableEq, Repr

/-- Rendered style fragments: what `{level_style}` / `{level_style:#}`,
`{dim}` / `{dim:#}`, `{italic}` / `{italic:#}` print. With the `styled`
feature off all six are the empty string (`String::new()`). -/
structure Styling where
  levelOpen : String
  levelClose : String
  dimOpen : String
  dimClose : String
  italOpen : String
  italClose : String
deriving DecidableEq, Repr

/-- The unstyled rendering: all six fragments empty. -/
def Styling.plain : Styling := ⟨"", "", "", "", "", ""⟩

/-- Rust `{:5}` on a level: `Formatter::pad` of the level name, i.e.
left-justified, space-filled to width 5. -/
def padTo5 (s : String) : String := s ++ String.mk (List.replicate (5 - s.length) ' ')

/-- The file line of `Logsy::log`:
`writeln!(file, "[{ts}{:5} {mod_p}] {msg}", record.level())`. -/
def file_line (ts : String) (lv : Level) (mod_p msg : String) : String :=
  "[" ++ ts ++ padTo5 lv.asStr ++ " " ++ mod_p ++ "] " ++ msg ++ "\n"

/-- The console line of `Logsy::log`:
`eprintln!("{dim}[{ts}{level} {dim}{italic}{mod_p}{italic:#}{dim}]{dim:#} {msg}")`
with `level = format!("{level_style}{:5}{level_style:#}", record.level())`
and `ts = format!("{italic}{ts}{italic:#}")`. -/
def console_line (sty : Styling) (ts : String) (lv : Level) (mod_p msg : String) : String :=
  sty.dimOpen ++ "[" ++ (sty.italOpen ++ ts ++ sty.italClose) ++
    (sty.levelOpen ++ padTo5 lv.asStr ++ sty.levelClose) ++ " " ++
    sty.dimOpen ++ sty.italOpen ++ mod_p ++ sty.italClose ++ sty.dimOpen ++ "]" ++
    sty.dimClose ++ " " ++ msg

/-- The literal prefix of the `eprintln!` emitted when the emission lock
cannot be acquired (the record follows, via `{record:?}`). -/
def lockFailMsg : String :=
  "ERROR: unable to acquire `LogsyConf` lock, not logging this: "

/-- Everything `Logsy::log` observably does: the configuration it leaves
behind, the lock-failure warning on stderr (prefix and the interpolated
record), the console line, the file line it passed to `writeln!`, and the
discarded result of that write (`none` when no write was attempted). -/
structure LogOutput where
  conf : LogsyConf
  droppedWarning : Option (String × LogRecord)
  consoleLine : Option String
  fileLine : Option String
  fileWriteOk : Option Bool
deriving DecidableEq, Repr

/-- `impl log::Log for Logsy`: `fn log`. `ts` is the pre-computed
timestamp fragment (`"<rfc3339> "`, or `""` without the `time` feature);
`p1` is the poison state at the `enabled` check, `p2` at the emission
`lock`; `writeOk` is the OS result of the file write, discarded by
`let _ = writeln!`. -/
def log (sty : Styling) (ts : String) (p1 p2 : Bool) (writeOk : Bool)
    (conf : LogsyConf) (r : LogRecord) : LogOutput :=
  if !enabled p1 conf r.level then
    ⟨conf, none, none, none, none⟩
  else
    let mod_p := r.module_path.getD ""
    if p2 then
      ⟨conf, some (lockFailMsg, r), none, none, none⟩
    else
      let cl := if conf.to_stderr then some (console_line sty ts r.level mod_p r.msg) else none
      let fl := if conf.to_file.isSome then some (file_line ts r.level mod_p r.msg) else none
      ⟨conf, none, cl, fl, if conf.to_file.isSome then some writeOk else none⟩

/-- Characterization of `try_set_level` on a healthy lock: the hint and
`min_level` are both updated and the call succeeds. -/
theorem try_set_level_ok (f : LevelFilter) (st : GlobalState) (hp : st.poisoned = false) :
    try_set_level f st =
      ({ st with maxLevel := f, conf := { st.conf with level := f.toLevel } }, .ok) := by
  simp [try_set_level, hp]

/-- Characterization of `try_set_level` on a poisoned lock: the hint is
updated, the configuration is untouched, and an error is returned. -/
theorem try_set_level_poisoned (f : LevelFilter) (st : GlobalState)
    (hp : st.poisoned = true) :
    try_set_level f st = ({ st with maxLevel := f }, .err poisonedLockMsg) := by
  simp [try_set_level, hp]

/-- `try_set_level` never touches `installed`. -/
theorem try_set_level_installed (f : LevelFilter) (st : GlobalState) :
    (try_set_level f st).1.conf.installed = st.conf.installed := by
  cases hp : st.poisoned
  · rw [try_set_level_ok f st hp]
  · rw [try_set_level_poisoned f st hp]

/-- `ensure_installed` on a poisoned lock fails without touching the state. -/
theorem ensure_installed_poisoned (env : Option String) (st : GlobalState)
    (hp : st.poisoned = true) :
    ensure_installed env st = ⟨st, .err poisonedLockMsg, false⟩ := by
  simp [ensure_installed, hp]

/-- `ensure_installed` when already installed returns at once, attempting
no registration. -/
theorem ensure_installed_already (env : Option String) (st : GlobalState)
    (hp : st.poisoned = false) (hi : st.conf.installed = true) :
    ensure_installed env st = ⟨st, .ok, false⟩ := by
  simp [ensure_installed, hp, hi]

/-- When already installed, `ensure_installed` leaves the state unchanged
(whatever the lock state). -/
theorem ensure_installed_state_of_installed (env : Option String) (st : GlobalState)
    (hi : st.conf.installed = true) :
    (ensure_installed env st).state = st := by
  cases hp : st.poisoned
  · rw [ensure_installed_already env st hp hi]
  · rw [ensure_installed_poisoned env st hp]

/-- Characterization of a fresh installation with a free registry slot:
`installed` is set, the logger registered, then the default or the parsed
`RUST_LOG` level is applied (panicking on an unparseable value). -/
theorem ensure_installed_fresh (env : Option String) (st : GlobalState)
    (hp : st.poisoned = false) (hi : st.conf.installed = false)
    (hocc : st.registryOccupied = false) :
    ensure_installed env st =
      (let stR : GlobalState :=
        { st with conf := { st.conf with installed := true },
                  registryOccupied := true, registeredLogger := true }
      match env with
      | none => ⟨(try_set_level .info stR).1, (try_set_level .info stR).2, true⟩
      | some s =>
        match LevelFilter.fromStr s with
        | some lf => ⟨(try_set_level lf stR).1, (try_set_level lf stR).2, true⟩
        | none => ⟨stR, .panicked (invalidEnvMsg s), true⟩) := by
  unfold ensure_installed set_logger
  rcases env with _ | s
  · simp [hp, hi, hocc]
  · cases hf : LevelFilter.fromStr s <;> simp [hp, hi, hocc, hf]

/-- Characterization of a fresh installation when the registry slot is
occupied: `installed` is still set first, and the registration error is
surfaced without any level being applied. -/
theorem ensure_installed_occupied (env : Option String) (st : GlobalState)
    (hp : st.poisoned = false) (hi : st.conf.installed = false)
    (hocc : st.registryOccupied = true) :
    ensure_installed env st =
      ⟨{ st with conf := { st.conf with installed := true } },
        .err setLoggerErrMsg, true⟩ := by
  unfold ensure_installed set_logger
  rcases env with _ | s
  · simp [hp, hi, hocc]
  · cases hf : LevelFilter.fromStr s <;> simp [hp, hi, hocc, hf]

/-- With the lock healthy, `installed` is true after any `ensure_installed`. -/
theorem ensure_installed_installed_after (env : Option String) (st : GlobalState)
    (hp : st.poisoned = false) :
    (ensure_installed env st).state.conf.installed = true := by
  cases hi : st.conf.installed
  · cases hocc : st.registryOccupied
    · rw [ensure_installed_fresh env st hp hi hocc]
      rcases env with _ | s
      · simp [try_set_level_installed]
      · cases hf : LevelFilter.fromStr s <;> simp [hf, try_set_level_installed]
    · rw [ensure_installed_occupied env st hp hi hocc]
  · rw [ensure_installed_state_of_installed env st hi]
    exact hi

/-- The state returned by `try_to_console` is the post-installation state,
possibly with `to_stderr` set. -/
theorem try_to_console_fst (env : Option String) (st : GlobalState) :
    (try_to_console env st).1 = (ensure_installed env st).state ∨
    (try_to_console env st).1 =
      { (ensure_installed env st).state with
          conf := { (ensure_installed env st).state.conf with to_stderr := true } } := by
  rcases hE : ensure_installed env st with ⟨st2, out, b⟩
  unfold try_to_console
  rw [hE]
  cases out
  · dsimp only
    split
    · exact Or.inl rfl
    · exact Or.inr rfl
  · exact Or.inl rfl
  · exact Or.inl rfl

/-- The state returned by `try_to_file` is the post-installation state,
possibly with a new file handle stored. -/
theorem try_to_file_fst (env : Option String) (fs : FileSys) (p : String) (a : Bool)
    (st : GlobalState) :
    (try_to_file env fs p a st).1 = (ensure_installed env st).state ∨
    (try_to_file env fs p a st).1 =
      { (ensure_installed env st).state with
          conf := { (ensure_installed env st).state.conf with
                      to_file := some ⟨p, a⟩ } } := by
  rcases hE : ensure_installed env st with ⟨st2, out, b⟩
  unfold try_to_file
  rw [hE]
  cases out
  · dsimp only
    split
    · split
      · exact Or.inl rfl
      · exact Or.inr rfl
    · exact Or.inl rfl
  · exact Or.inl rfl
  · exact Or.inl rfl

/-- Claim C1: with the lock healthy, `enabled(R)` is true iff `min_level`
is set to some `S` and `R` is at least as severe as `S` (the discriminant
of `R` is at most that of `S`, Error being 1 and most severe); in
particular it is false for every `R` while `min_level` has never been set
(it is `none`). -/
theorem c1_enabled_iff_min_level (conf : LogsyConf) (R : Level) :
    enabled false conf R = true ↔ ∃ S, conf.level = some S ∧ R.toNat ≤ S.toNat := by
  cases h : conf.level with
  | none => simp [enabled, h]
  | some lv => simp [enabled, h]

/-- Claim C2, counterexample: from the initial (uninstalled) state, the
first call to the level setter leaves `installed` false — contrary to the
claim that the transition fires on the first call to any public
configuration setter including the level setter. -/
theorem c2_counterexample :
    initialState.conf.installed = false ∧
      (step (Op.setLevel LevelFilter.info) initialState).1.conf.installed = false := by
  exact ⟨rfl, rfl⟩

/-- Claim C2, amended: the Uninstalled-to-Installed transition fires on
the first call to a console or file setter (when the state lock is
acquirable); the level setter alone never installs; and under every
public configuration call, `installed` never reverts from true to
false. -/
theorem c2_installed_transition (env : Option String) (fs : FileSys) (p : String)
    (a : Bool) (st : GlobalState) (hp : st.poisoned = false)
    (hi : st.conf.installed = false) :
    ((try_to_console env st).1.conf.installed = true ∧
      (try_to_file env fs p a st).1.conf.installed = true ∧
      (try_set_level LevelFilter.info st).1.conf.installed = false) ∧
    (∀ op st2, st2.conf.installed = true → (step op st2).1.conf.installed = true) := by
  have hE := ensure_installed_installed_after env st hp
  refine ⟨⟨?_, ?_, ?_⟩, ?_⟩
  · rcases try_to_console_fst env st with h | h <;> rw [h] <;> simpa using hE
  · rcases try_to_file_fst env fs p a st with h | h <;> rw [h] <;> simpa using hE
  · rw [try_set_level_installed]
    exact hi
  · intro op st2 h2
    cases op with
    | toConsole env2 =>
        have hS := ensure_installed_state_of_installed env2 st2 h2
        rcases try_to_console_fst env2 st2 with h | h <;>
          simp only [step] <;> rw [h, hS] <;> simpa using h2
    | toFile env2 fs2 p2 a2 =>
        have hS := ensure_installed_state_of_installed env2 st2 h2
        have hF := try_to_file_fst env2 fs2 p2 a2 st2
        show (try_to_file env2 fs2 p2 a2 st2).1.conf.installed = true
        rcases hF with h | h <;> rw [h, hS] <;> simpa using h2
    | setLevel f =>
        show (try_set_level f st2).1.conf.installed = true
        rw [try_set_level_installed]
        exact h2

/-- Claim C3: a record whose severity is not enabled makes `Logsy::log`
return at once: no console line, no file line, no file write attempted,
no warning, and the configuration unchanged — uniformly in the emission
lock state `p2` and the write result `writeOk`, i.e. the emission lock is
never taken and nothing is formatted. -/
theorem c3_not_enabled_frame (sty : Styling) (ts : String) (p1 p2 writeOk : Bool)
    (conf : LogsyConf) (r : LogRecord)
    (h : enabled p1 conf r.level = false) :
    log sty ts p1 p2 writeOk conf r =
      ⟨conf, none, none, none, none⟩ := by
  simp [log, h]

/-- Claim C3, witness at a concrete input: level never set, a warn
record, emission lock poisoned and write failing — the call is still the
identity with no output. -/
theorem c3_not_enabled_frame_witness :
    enabled false ⟨true, true, some ⟨"a.log", true⟩, none⟩ (LogRecord.mk .warn none "m").level
        = false ∧
      log .plain "" false true false ⟨true, true, some ⟨"a.log", true⟩, none⟩
          (LogRecord.mk .warn none "m") =
        ⟨⟨true, true, some ⟨"a.log", true⟩, none⟩, none, none, none, none⟩ :=
  ⟨by decide, c3_not_enabled_frame .plain "" false true false _ _ (by decide)⟩

/-- Claim C10: the public level setter applied to the `Off` filter stores
`None` into `min_level` (since `LevelFilter::Off.to_level()` is `None`),
after which `enabled` is false for every record severity. -/
theorem c10_off_disables (st : GlobalState) (hp : st.poisoned = false) :
    (try_set_level LevelFilter.off st).1.conf.level = none ∧
      ∀ R, enabled false (try_set_level LevelFilter.off st).1.conf R = false := by
  constructor
  · simp [try_set_level, hp, LevelFilter.toLevel]
  · intro R
    simp [try_set_level, hp, enabled, LevelFilter.toLevel]

/-- Claim C10, witness at the initial state. -/
theorem c10_off_disables_witness :
    (try_set_level LevelFilter.off initialState).1.conf.level = none ∧
      ∀ R, enabled false (try_set_level LevelFilter.off initialState).1.conf R = false :=
  c10_off_disables initialState rfl

/-- Claim C2, witness: from the initial state, the console and file
setters install, the level setter does not, and installedness is
preserved by every operation. -/
theorem c2_installed_transition_witness :
    initialState.poisoned = false ∧ initialState.conf.installed = false ∧
    (((try_to_console none initialState).1.conf.installed = true ∧
        (try_to_file none ⟨some PathState.dir⟩ "a.log" true initialState).1.conf.installed
            = true ∧
        (try_set_level LevelFilter.info initialState).1.conf.installed = false) ∧
      ∀ op st2, st2.conf.installed = true → (step op st2).1.conf.installed = true) :=
  ⟨rfl, rfl,
    c2_installed_transition none ⟨some PathState.dir⟩ "a.log" true initialState rfl rfl⟩

/-- Claim C4: the emission path never aborts the host. With the emission
lock unavailable (poisoned between the gate check and the second
`lock()`), `Logsy::log` prints the warning naming the dropped record to
stderr and returns with neither sink written and the configuration
unchanged; and the OS result of the file write influences nothing the
call does (it is discarded by `let _ = writeln!`) — the model of `log`
is a total function into `LogOutput`, with no panic outcome at all. -/
theorem c4_emit_never_aborts (sty : Styling) (ts : String) (p1 writeOk : Bool)
    (conf : LogsyConf) (r : LogRecord)
    (h : enabled p1 conf r.level = true) :
    log sty ts p1 true writeOk conf r = ⟨conf, some (lockFailMsg, r), none, none, none⟩ ∧
    ∀ p2 w1 w2,
      (log sty ts p1 p2 w1 conf r).conf = (log sty ts p1 p2 w2 conf r).conf ∧
      (log sty ts p1 p2 w1 conf r).droppedWarning
          = (log sty ts p1 p2 w2 conf r).droppedWarning ∧
      (log sty ts p1 p2 w1 conf r).consoleLine = (log sty ts p1 p2 w2 conf r).consoleLine ∧
      (log sty ts p1 p2 w1 conf r).fileLine = (log sty ts p1 p2 w2 conf r).fileLine := by
  constructor
  · simp [log, h]
  · intro p2 w1 w2
    cases p2 <;> simp [log, h]

/-- Claim C4, witness: an Info record against an Info level with both
sinks active, the emission lock poisoned, the write failing. -/
theorem c4_emit_never_aborts_witness :
    enabled false ⟨true, true, some ⟨"a.log", false⟩, some Level.info⟩
        (LogRecord.mk Level.info (some "app") "hello").level = true ∧
    (log .plain "" false true false ⟨true, true, some ⟨"a.log", false⟩, some Level.info⟩
          (LogRecord.mk Level.info (some "app") "hello") =
        ⟨⟨true, true, some ⟨"a.log", false⟩, some Level.info⟩,
          some (lockFailMsg, LogRecord.mk Level.info (some "app") "hello"),
          none, none, none⟩ ∧
      ∀ p2 w1 w2,
        (log .plain "" false p2 w1 ⟨true, true, some ⟨"a.log", false⟩, some Level.info⟩
              (LogRecord.mk Level.info (some "app") "hello")).conf =
          (log .plain "" false p2 w2 ⟨true, true, some ⟨"a.log", false⟩, some Level.info⟩
              (LogRecord.mk Level.info (some "app") "hello")).conf ∧
        (log .plain "" false p2 w1 ⟨true, true, some ⟨"a.log", false⟩, some Level.info⟩
              (LogRecord.mk Level.info (some "app") "hello")).droppedWarning =
          (log .plain "" false p2 w2 ⟨true, true, some ⟨"a.log", false⟩, some Level.info⟩
              (LogRecord.mk Level.info (some "app") "hello")).droppedWarning ∧
        (log .plain "" false p2 w1 ⟨true, true, some ⟨"a.log", false⟩, some Level.info⟩
              (LogRecord.mk Level.info (some "app") "hello")).consoleLine =
          (log .plain "" false p2 w2 ⟨true, true, some ⟨"a.log", false⟩, some Level.info⟩
              (LogRecord.mk Level.info (some "app") "hello")).consoleLine ∧
        (log .plain "" false p2 w1 ⟨true, true, some ⟨"a.log", false⟩, some Level.info⟩
              (LogRecord.mk Level.info (some "app") "hello")).fileLine =
          (log .plain "" false p2 w2 ⟨true, true, some ⟨"a.log", false⟩, some Level.info⟩
              (LogRecord.mk Level.info (some "app") "hello")).fileLine) :=
  ⟨by decide,
    c4_emit_never_aborts .plain "" false false
      ⟨true, true, some ⟨"a.log", false⟩, some Level.info⟩
      (LogRecord.mk Level.info (some "app") "hello") (by decide)⟩

/-- Claim C5 (a bug in the code): the guard of the directory-creation
branch of `try_to_file` is `dirname.is_dir() && !dirname.exists()`,
which is unsatisfiable (a path that is a directory exists), so
`create_dir_all` is never reached and the filesystem is never modified
before the open; a call on a path whose parent directory is missing
therefore fails with the missing-directory error instead of creating
the parent — contradicting the function doc, which promises the parent
directory is created when missing. -/
theorem c5_parent_dir_never_created :
    (∀ p, shouldCreateDir p = false) ∧
    (∀ fs : FileSys, dirStep fs = fs) ∧
    (try_to_file none ⟨some PathState.missing⟩ "logs/app.log" true initialState).2.2 =
      Outcome.err fileOpenErrMsg := by
  refine ⟨?_, ?_, rfl⟩
  · intro p
    rcases p with _ | ps
    · rfl
    · cases ps <;> rfl
  · intro fs
    rcases fs with ⟨p⟩
    rcases p with _ | ps
    · rfl
    · cases ps <;> rfl

/-- Claim C6, counterexample: with the lock poisoned, `try_set_level`
from the initial state moves the global hint from Off to Error while
`min_level` stays unset and the call errors — the hint is updated while
`min_level` is unchanged, which the claim rules out for every
execution. -/
theorem c6_counterexample :
    ({ initialState with poisoned := true } : GlobalState).maxLevel = LevelFilter.off ∧
    (try_set_level LevelFilter.error { initialState with poisoned := true }).1.maxLevel =
      LevelFilter.error ∧
    (try_set_level LevelFilter.error
        { initialState with poisoned := true }).1.conf.level = none ∧
    (try_set_level LevelFilter.error { initialState with poisoned := true }).2 =
      Outcome.err poisonedLockMsg :=
  ⟨rfl, rfl, rfl, rfl⟩

/-- Claim C6, amended: on every call of the level setter that acquires
the lock, `min_level` becomes `filter.to_level()` and the fast-path hint
becomes `filter` in the same call, leaving the two consistent; when the
lock is poisoned the hint is updated first, `min_level` is left
unchanged, and the call fails. -/
theorem c6_set_level_consistent (f : LevelFilter) (st : GlobalState)
    (hp : st.poisoned = false) :
    (try_set_level f st).1.maxLevel = f ∧
    (try_set_level f st).1.conf.level = f.toLevel ∧
    (try_set_level f st).1.conf.level = (try_set_level f st).1.maxLevel.toLevel ∧
    (try_set_level f st).2 = Outcome.ok := by
  rw [try_set_level_ok f st hp]
  exact ⟨rfl, rfl, rfl, rfl⟩

/-- Claim C6, witness at the initial state with the Debug filter. -/
theorem c6_set_level_consistent_witness :
    (try_set_level LevelFilter.debug initialState).1.maxLevel = LevelFilter.debug ∧
    (try_set_level LevelFilter.debug initialState).1.conf.level =
      LevelFilter.debug.toLevel ∧
    (try_set_level LevelFilter.debug initialState).1.conf.level =
      (try_set_level LevelFilter.debug initialState).1.maxLevel.toLevel ∧
    (try_set_level LevelFilter.debug initialState).2 = Outcome.ok :=
  c6_set_level_consistent LevelFilter.debug initialState rfl

/-- Claim C7: for an emitted record with the file sink active, the line
handed to the file is exactly the opening bracket, the
timestamp-or-empty fragment, the level name left-justified to width 5, a
space, the origin path, a closing bracket and a space, the message, and
a newline; and it is independent of the styling fragments (file output
is never styled). -/
theorem c7_file_line_format (sty : Styling) (ts : String) (writeOk : Bool)
    (conf : LogsyConf) (r : LogRecord)
    (h : enabled false conf r.level = true) (hf : conf.to_file.isSome = true) :
    (log sty ts false false writeOk conf r).fileLine =
      some ("[" ++ ts ++
        (r.level.asStr ++ String.mk (List.replicate (5 - r.level.asStr.length) ' ')) ++
        " " ++ r.module_path.getD "" ++ "] " ++ r.msg ++ "\n") ∧
    ∀ sty2, (log sty2 ts false false writeOk conf r).fileLine =
      (log sty ts false false writeOk conf r).fileLine := by
  constructor
  · simp [log, h, hf, file_line, padTo5]
  · intro sty2
    simp [log, h]

/-- Claim C7, witness: a Warn record with a file sink and level Info. -/
theorem c7_file_line_format_witness :
    enabled false ⟨false, false, some ⟨"b.log", true⟩, some Level.info⟩
        (LogRecord.mk Level.warn (some "app::db") "late").level = true ∧
    (LogsyConf.mk false false (some ⟨"b.log", true⟩) (some Level.info)).to_file.isSome
        = true ∧
    ((log .plain "ts " false false true
          ⟨false, false, some ⟨"b.log", true⟩, some Level.info⟩
          (LogRecord.mk Level.warn (some "app::db") "late")).fileLine =
        some ("[" ++ "ts " ++
          (Level.warn.asStr ++
            String.mk (List.replicate (5 - Level.warn.asStr.length) ' ')) ++
          " " ++ (some "app::db").getD "" ++ "] " ++ "late" ++ "\n") ∧
      ∀ sty2, (log sty2 "ts " false false true
            ⟨false, false, some ⟨"b.log", true⟩, some Level.info⟩
            (LogRecord.mk Level.warn (some "app::db") "late")).fileLine =
        (log .plain "ts " false false true
            ⟨false, false, some ⟨"b.log", true⟩, some Level.info⟩
            (LogRecord.mk Level.warn (some "app::db") "late")).fileLine) :=
  ⟨by decide, by decide,
    c7_file_line_format .plain "ts " true
      ⟨false, false, some ⟨"b.log", true⟩, some Level.info⟩
      (LogRecord.mk Level.warn (some "app::db") "late") (by decide) (by decide)⟩

/-- Claim C8: on a fresh installation, with no environment override the
level defaults to Info (hint and `min_level` both set accordingly); a
parseable override is applied instead; an unparseable override makes the
call panic with a message that names the bad value, and neither the hint
nor `min_level` is touched — the default is never silently applied. -/
theorem c8_env_default_and_override (st : GlobalState)
    (hp : st.poisoned = false) (hi : st.conf.installed = false)
    (hocc : st.registryOccupied = false) :
    ((ensure_installed none st).outcome = Outcome.ok ∧
      (ensure_installed none st).state.maxLevel = LevelFilter.info ∧
      (ensure_installed none st).state.conf.level = some Level.info) ∧
    (∀ s lf, LevelFilter.fromStr s = some lf →
      (ensure_installed (some s) st).outcome = Outcome.ok ∧
      (ensure_installed (some s) st).state.maxLevel = lf ∧
      (ensure_installed (some s) st).state.conf.level = lf.toLevel) ∧
    (∀ s, LevelFilter.fromStr s = none →
      (ensure_installed (some s) st).outcome = Outcome.panicked (invalidEnvMsg s) ∧
      (∃ pre post, invalidEnvMsg s = pre ++ (s ++ post)) ∧
      (ensure_installed (some s) st).state.conf.level = st.conf.level ∧
      (ensure_installed (some s) st).state.maxLevel = st.maxLevel) := by
  refine ⟨?_, ?_, ?_⟩
  · rw [ensure_installed_fresh none st hp hi hocc]
    simp [try_set_level, hp, LevelFilter.toLevel]
  · intro s lf hf
    rw [ensure_installed_fresh (some s) st hp hi hocc]
    simp [hf, try_set_level, hp]
  · intro s hf
    rw [ensure_installed_fresh (some s) st hp hi hocc]
    refine ⟨by simp [hf], ?_, by simp [hf], by simp [hf]⟩
    exact ⟨parseLevelErrMsg ++ ": invalid RUST_LOG env var value: \"", "\"",
      by simp [invalidEnvMsg, String.append_assoc]⟩

/-- Claim C8, witness at the initial state. -/
theorem c8_env_default_and_override_witness :
    ((ensure_installed none initialState).outcome = Outcome.ok ∧
      (ensure_installed none initialState).state.maxLevel = LevelFilter.info ∧
      (ensure_installed none initialState).state.conf.level = some Level.info) ∧
    (∀ s lf, LevelFilter.fromStr s = some lf →
      (ensure_installed (some s) initialState).outcome = Outcome.ok ∧
      (ensure_installed (some s) initialState).state.maxLevel = lf ∧
      (ensure_installed (some s) initialState).state.conf.level = lf.toLevel) ∧
    (∀ s, LevelFilter.fromStr s = none →
      (ensure_installed (some s) initialState).outcome =
        Outcome.panicked (invalidEnvMsg s) ∧
      (∃ pre post, invalidEnvMsg s = pre ++ (s ++ post)) ∧
      (ensure_installed (some s) initialState).state.conf.level =
        initialState.conf.level ∧
      (ensure_installed (some s) initialState).state.maxLevel =
        initialState.maxLevel) :=
  c8_env_default_and_override initialState rfl rfl rfl

/-- Claim C9: `ensure_installed` sets `installed` before calling the
registry, so with the slot already occupied the first setter call
surfaces the registration error once, leaves `installed` true and
`min_level` unset (the Info default is never applied), and any later
`ensure_installed` neither attempts registration again nor changes the
state. -/
theorem c9_registration_once (env env2 : Option String) (st : GlobalState)
    (hp : st.poisoned = false) (hi : st.conf.installed = false)
    (hl : st.conf.level = none) (hocc : st.registryOccupied = true) :
    (ensure_installed env st).registrationAttempted = true ∧
    (ensure_installed env st).outcome = Outcome.err setLoggerErrMsg ∧
    (ensure_installed env st).state.conf.installed = true ∧
    (ensure_installed env st).state.conf.level = none ∧
    (ensure_installed env st).state.maxLevel = st.maxLevel ∧
    (ensure_installed env2 ((ensure_installed env st).state)).registrationAttempted
        = false ∧
    (ensure_installed env2 ((ensure_installed env st).state)).state =
      (ensure_installed env st).state := by
  rw [ensure_installed_occupied env st hp hi hocc]
  refine ⟨rfl, rfl, rfl, hl, rfl, ?_, ?_⟩
  · show (ensure_installed env2
        { st with conf := { st.conf with installed := true } }).registrationAttempted
      = false
    rw [ensure_installed_already env2
        { st with conf := { st.conf with installed := true } } hp rfl]
  · show (ensure_installed env2
        { st with conf := { st.conf with installed := true } }).state =
      { st with conf := { st.conf with installed := true } }
    exact ensure_installed_state_of_installed env2
      { st with conf := { st.conf with installed := true } } rfl

/-- Claim C9, witness: the initial state with the registry slot already
occupied by a foreign logger. -/
theorem c9_registration_once_witness :
    (ensure_installed none { initialState with registryOccupied := true
      }).registrationAttempted = true ∧
    (ensure_installed none { initialState with registryOccupied := true }).outcome =
      Outcome.err setLoggerErrMsg ∧
    (ensure_installed none { initialState with registryOccupied := true
      }).state.conf.installed = true ∧
    (ensure_installed none { initialState with registryOccupied := true
      }).state.conf.level = none ∧
    (ensure_installed none { initialState with registryOccupied := true
      }).state.maxLevel =
      ({ initialState with registryOccupied := true } : GlobalState).maxLevel ∧
    (ensure_installed (some "info")
        ((ensure_installed none { initialState with registryOccupied := true
          }).state)).registrationAttempted = false ∧
    (ensure_installed (some "info")
        ((ensure_installed none { initialState with registryOccupied := true
          }).state)).state =
      (ensure_installed none { initialState with registryOccupied := true }).state :=
  c9_registration_once none (some "info")
    { initialState with registryOccupied := true } rfl rfl rfl rfl

end Logsy
